import Mathlib

/-!
Verification of the sqlx-tx transactional executor (huangc28/sqlx-tx).

The repository ships two variants of the executor in `tx.go`:
  * a functional-options variant:
      `ExecuteContext[T](ctx, db, txFunc, options ...ConfigOption)`
  * a Config-struct variant:
      `ExecuteContext[T](ctx, db, config *Config, txFunc)`
Both begin a transaction, optionally run a PostgreSQL `DEALLOCATE ALL`
cleanup statement, invoke a unit-of-work callback, and resolve the
transaction (commit on success, rollback on error or panic) in a deferred
block before returning.

The shallow embedding below models the external collaborators (database
handle, transaction handle, unit of work) by their observable behaviour:
a `DB` record says which of begin / cleanup / commit / rollback fail and
with which error, and a `TxBody` value says whether the unit of work
returns a (value, error) pair or panics with some payload.  The executor
is translated into a pure function returning the Go (result, err) outcome
(or the propagated panic payload) together with the exact sequence of
operations attempted on the database and transaction handles.
-/

namespace SqlxTx

/-- Go `sql.IsolationLevel` is an `int` enumeration (`LevelDefault = 0`, ...). -/
abbrev IsolationLevel := Int

/-- Go `sql.TxOptions`: isolation level and read-only flag.  The Go zero
value has `Isolation = 0` (`LevelDefault`) and `ReadOnly = false`. -/
structure TxOptions where
  isolation : IsolationLevel := 0
  readOnly  : Bool := false
deriving DecidableEq, Repr

/-- `Config` from `tx.go`: an optional pointer to `sql.TxOptions`
(`none` models a nil pointer) and the PostgreSQL-specific
`DeallocateAll` flag.  The Go zero value `&Config\x7b\x7d` has both at
their defaults. -/
structure Config where
  txOptions     : Option TxOptions := none
  deallocateAll : Bool := false
deriving DecidableEq, Repr

/-- `ConfigOption` from `tx.go`: a function that modifies a `Config`
(the Go version mutates in place; we model it as a functional update). -/
def ConfigOption := Config → Config

/-- `WithDeallocateAll` from `tx.go`: enables the PostgreSQL-specific
prepared-statement cleanup. -/
def WithDeallocateAll : ConfigOption := fun c =>
  { c with deallocateAll := true }

/-- `WithTxOptions` from `tx.go`: sets the `TxOptions` pointer wholesale. -/
def WithTxOptions (opts : Option TxOptions) : ConfigOption := fun c =>
  { c with txOptions := opts }

/-- `WithIsolationLevel` from `tx.go`: allocates a zero `TxOptions` if the
pointer is nil, then sets only the `Isolation` field. -/
def WithIsolationLevel (level : IsolationLevel) : ConfigOption := fun c =>
  match c.txOptions with
  | none   => { c with txOptions := some { isolation := level } }
  | some o => { c with txOptions := some { o with isolation := level } }

/-- `WithReadOnly` from `tx.go`: allocates a zero `TxOptions` if the
pointer is nil, then sets only the `ReadOnly` field. -/
def WithReadOnly : ConfigOption := fun c =>
  match c.txOptions with
  | none   => { c with txOptions := some { readOnly := true } }
  | some o => { c with txOptions := some { o with readOnly := true } }

/-- The option-application loop at the top of the functional-options
`ExecuteContext`: start from the zero `Config` and apply each option in
order (`config := &Config\x7b\x7d; for _, option := range options \x7b
option(config) \x7d`). -/
def applyOptions (options : List ConfigOption) : Config :=
  options.foldl (fun c o => o c) {}

/-- Go error values as built by `tx.go`.  `base` is an opaque error from a
collaborator; `wrap` models `fmt.Errorf("<msg>: %w", cause)` (the cause is
unwrappable); `rollbackFailed re orig` models
`fmt.Errorf("transaction rollback failed: %v (original error: %w)", re, orig)`
(the rollback error is only formatted via `%v`, the original error is the
`%w` unwrappable cause). -/
inductive GoError where
  | base (msg : String)
  | wrap (msg : String) (cause : GoError)
  | rollbackFailed (rollbackErr : GoError) (original : GoError)
deriving DecidableEq, Repr

/-- The string produced by the `Error()` method: `fmt.Errorf` with `%w`
or `%v` splices the sub-error's message at the verb. -/
def GoError.error : GoError → String
  | .base m => m
  | .wrap m c => m ++ ": " ++ c.error
  | .rollbackFailed re orig =>
      "transaction rollback failed: " ++ re.error ++
        " (original error: " ++ orig.error ++ ")"

/-- `errors.Unwrap` on the errors built by `tx.go`: only the argument of a
`%w` verb is retrievable; `%v` does not wrap. -/
def GoError.unwrap : GoError → Option GoError
  | .base _ => none
  | .wrap _ c => some c
  | .rollbackFailed _ orig => some orig

/-- A `context.Context` value, identified only by whether it is
`context.Background()` or some other caller-supplied context. -/
inductive Context where
  | background
  | other (id : Nat)
deriving DecidableEq, Repr

/-- The operations the executor attempts on the database / transaction
handles, in order.  `beginTx` records the context and the `*sql.TxOptions`
passed to `BeginTxx`; `execStmt` records a statement run with
`ExecContext`; `callTxFunc` marks the unit-of-work invocation. -/
inductive Op where
  | beginTx (ctx : Context) (opts : Option TxOptions)
  | execStmt (ctx : Context) (stmt : String)
  | callTxFunc
  | commit
  | rollback
deriving DecidableEq, Repr

/-- Behaviour of the caller's unit of work `txFunc`: it either returns a
`(value, error)` pair or panics with a payload of type `P` (a non-nil
payload, so Go's `recover()` observes it). -/
inductive TxBody (T P : Type) where
  | ret (v : T) (e : Option GoError)
  | panics (p : P)
deriving DecidableEq, Repr

/-- Behaviour of the database and transaction handles for one call: which
of the four operations fail, and with which underlying error.  `none`
means the operation succeeds. -/
structure DB where
  beginErr    : Option GoError
  deallocErr  : Option GoError
  commitErr   : Option GoError
  rollbackErr : Option GoError
deriving DecidableEq, Repr

/-- How a call of the executor hands control back to its caller: a normal
return of the Go `(result, err)` pair, or a re-raised panic carrying the
payload. -/
inductive ExecOutcome (T P : Type) where
  | ret (value : T) (err : Option GoError)
  | panicked (payload : P)
deriving DecidableEq, Repr

/-- The part of `ExecuteContext` from the unit-of-work call onward: it is
textually identical in both variants of `tx.go`.  Models
`result, err = txFunc(tx); return result, err` together with the deferred
block: on panic, rollback (error discarded) and re-panic; on a non-nil
`err`, rollback, combining a rollback failure with the original error; on
nil `err`, commit, wrapping a commit failure.  Note the named return
`result` is never reset by the deferred block, so the unit of work's value
is returned even when `err` ends up non-nil. -/
def runUnitOfWork {T P : Type} (db : DB) (txFunc : TxBody T P) :
    ExecOutcome T P × List Op :=
  match txFunc with
  | .panics p => (.panicked p, [Op.callTxFunc, Op.rollback])
  | .ret v e =>
    match e with
    | some e0 =>
      match db.rollbackErr with
      | some re => (.ret v (some (.rollbackFailed re e0)), [Op.callTxFunc, Op.rollback])
      | none    => (.ret v (some e0), [Op.callTxFunc, Op.rollback])
    | none =>
      match db.commitErr with
      | some ce => (.ret v (some (.wrap "failed to commit transaction" ce)),
                    [Op.callTxFunc, Op.commit])
      | none    => (.ret v none, [Op.callTxFunc, Op.commit])

namespace V1

/-- The functional-options `ExecuteContext` from `tx.go`: applies the
options to a zero `Config`, begins the transaction with
`config.TxOptions`, optionally runs `DEALLOCATE ALL` (rolling back and
returning a wrapped cleanup error on failure, the rollback error
discarded), then runs the unit of work under the deferred resolution
block.  The named return `result` starts at the zero value of `T`. -/
def ExecuteContext {T P : Type} [Inhabited T] (ctx : Context) (db : DB)
    (txFunc : TxBody T P) (options : List ConfigOption) :
    ExecOutcome T P × List Op :=
  let config := applyOptions options
  match db.beginErr with
  | some e =>
      (.ret default (some (.wrap "failed to begin transaction" e)),
       [Op.beginTx ctx config.txOptions])
  | none =>
    if config.deallocateAll then
      match db.deallocErr with
      | some de =>
          (.ret default (some (.wrap "failed to deallocate prepared statements" de)),
           [Op.beginTx ctx config.txOptions, Op.execStmt ctx "DEALLOCATE ALL",
            Op.rollback])
      | none =>
          let r := runUnitOfWork db txFunc
          (r.1, Op.beginTx ctx config.txOptions ::
                Op.execStmt ctx "DEALLOCATE ALL" :: r.2)
    else
      let r := runUnitOfWork db txFunc
      (r.1, Op.beginTx ctx config.txOptions :: r.2)

/-- The functional-options `Execute` from `tx.go`:
`ExecuteContext(context.Background(), db, txFunc)` with no options. -/
def Execute {T P : Type} [Inhabited T] (db : DB) (txFunc : TxBody T P) :
    ExecOutcome T P × List Op :=
  ExecuteContext Context.background db txFunc []

end V1

namespace V2

/-- The Config-struct `ExecuteContext` from `tx.go`: a nil `*Config`
(modelled as `none`) is replaced with the zero `Config`; the rest of the
body is identical to the functional-options variant. -/
def ExecuteContext {T P : Type} [Inhabited T] (ctx : Context) (db : DB)
    (config : Option Config) (txFunc : TxBody T P) :
    ExecOutcome T P × List Op :=
  let config := config.getD {}
  match db.beginErr with
  | some e =>
      (.ret default (some (.wrap "failed to begin transaction" e)),
       [Op.beginTx ctx config.txOptions])
  | none =>
    if config.deallocateAll then
      match db.deallocErr with
      | some de =>
          (.ret default (some (.wrap "failed to deallocate prepared statements" de)),
           [Op.beginTx ctx config.txOptions, Op.execStmt ctx "DEALLOCATE ALL",
            Op.rollback])
      | none =>
          let r := runUnitOfWork db txFunc
          (r.1, Op.beginTx ctx config.txOptions ::
                Op.execStmt ctx "DEALLOCATE ALL" :: r.2)
    else
      let r := runUnitOfWork db txFunc
      (r.1, Op.beginTx ctx config.txOptions :: r.2)

/-- The Config-struct `Execute` from `tx.go`:
`ExecuteContext(context.Background(), db, nil, txFunc)`. -/
def Execute {T P : Type} [Inhabited T] (db : DB) (txFunc : TxBody T P) :
    ExecOutcome T P × List Op :=
  ExecuteContext Context.background db none txFunc

/-- `ExecuteWithConfig` from `tx.go`:
`ExecuteContext(context.Background(), db, config, txFunc)`. -/
def ExecuteWithConfig {T P : Type} [Inhabited T] (db : DB)
    (config : Option Config) (txFunc : TxBody T P) :
    ExecOutcome T P × List Op :=
  ExecuteContext Context.background db config txFunc

end V2

/-- Does an `Op` resolve the transaction by committing? -/
def isCommit : Op → Bool
  | Op.commit => true
  | _ => false

/-- Does an `Op` resolve the transaction by rolling back? -/
def isRollback : Op → Bool
  | Op.rollback => true
  | _ => false

/-- Is an `Op` a statement executed on the transaction handle? -/
def isExecStmt : Op → Bool
  | Op.execStmt _ _ => true
  | _ => false

/-- Is an `Op` the unit-of-work invocation? -/
def isCallTxFunc : Op → Bool
  | Op.callTxFunc => true
  | _ => false

/-- Number of commit attempts in a trace. -/
def commitCount (tr : List Op) : Nat := (tr.filter isCommit).length

/-- Number of rollback attempts in a trace. -/
def rollbackCount (tr : List Op) : Nat := (tr.filter isRollback).length

/-- Number of statements executed on the transaction handle in a trace. -/
def execStmtCount (tr : List Op) : Nat := (tr.filter isExecStmt).length

/-- Number of unit-of-work invocations in a trace. -/
def callTxFuncCount (tr : List Op) : Nat := (tr.filter isCallTxFunc).length

@[simp] theorem commitCount_nil : commitCount [] = 0 := rfl

@[simp] theorem commitCount_cons_beginTx (c : Context) (o : Option TxOptions)
    (tr : List Op) : commitCount (Op.beginTx c o :: tr) = commitCount tr := rfl

@[simp] theorem commitCount_cons_execStmt (c : Context) (s : String)
    (tr : List Op) : commitCount (Op.execStmt c s :: tr) = commitCount tr := rfl

@[simp] theorem commitCount_cons_call (tr : List Op) :
    commitCount (Op.callTxFunc :: tr) = commitCount tr := rfl

@[simp] theorem commitCount_cons_rollback (tr : List Op) :
    commitCount (Op.rollback :: tr) = commitCount tr := rfl

@[simp] theorem commitCount_cons_commit (tr : List Op) :
    commitCount (Op.commit :: tr) = commitCount tr + 1 := rfl

@[simp] theorem rollbackCount_nil : rollbackCount [] = 0 := rfl

@[simp] theorem rollbackCount_cons_beginTx (c : Context) (o : Option TxOptions)
    (tr : List Op) : rollbackCount (Op.beginTx c o :: tr) = rollbackCount tr := rfl

@[simp] theorem rollbackCount_cons_execStmt (c : Context) (s : String)
    (tr : List Op) : rollbackCount (Op.execStmt c s :: tr) = rollbackCount tr := rfl

@[simp] theorem rollbackCount_cons_call (tr : List Op) :
    rollbackCount (Op.callTxFunc :: tr) = rollbackCount tr := rfl

@[simp] theorem rollbackCount_cons_commit (tr : List Op) :
    rollbackCount (Op.commit :: tr) = rollbackCount tr := rfl

@[simp] theorem rollbackCount_cons_rollback (tr : List Op) :
    rollbackCount (Op.rollback :: tr) = rollbackCount tr + 1 := rfl

@[simp] theorem execStmtCount_nil : execStmtCount [] = 0 := rfl

@[simp] theorem execStmtCount_cons_beginTx (c : Context) (o : Option TxOptions)
    (tr : List Op) : execStmtCount (Op.beginTx c o :: tr) = execStmtCount tr := rfl

@[simp] theorem execStmtCount_cons_execStmt (c : Context) (s : String)
    (tr : List Op) : execStmtCount (Op.execStmt c s :: tr) = execStmtCount tr + 1 := rfl

@[simp] theorem execStmtCount_cons_call (tr : List Op) :
    execStmtCount (Op.callTxFunc :: tr) = execStmtCount tr := rfl

@[simp] theorem execStmtCount_cons_commit (tr : List Op) :
    execStmtCount (Op.commit :: tr) = execStmtCount tr := rfl

@[simp] theorem execStmtCount_cons_rollback (tr : List Op) :
    execStmtCount (Op.rollback :: tr) = execStmtCount tr := rfl

@[simp] theorem callTxFuncCount_nil : callTxFuncCount [] = 0 := rfl

@[simp] theorem callTxFuncCount_cons_beginTx (c : Context) (o : Option TxOptions)
    (tr : List Op) : callTxFuncCount (Op.beginTx c o :: tr) = callTxFuncCount tr := rfl

@[simp] theorem callTxFuncCount_cons_execStmt (c : Context) (s : String)
    (tr : List Op) : callTxFuncCount (Op.execStmt c s :: tr) = callTxFuncCount tr := rfl

@[simp] theorem callTxFuncCount_cons_call (tr : List Op) :
    callTxFuncCount (Op.callTxFunc :: tr) = callTxFuncCount tr + 1 := rfl

@[simp] theorem callTxFuncCount_cons_commit (tr : List Op) :
    callTxFuncCount (Op.commit :: tr) = callTxFuncCount tr := rfl

@[simp] theorem callTxFuncCount_cons_rollback (tr : List Op) :
    callTxFuncCount (Op.rollback :: tr) = callTxFuncCount tr := rfl

/-- The unit-of-work stage resolves the transaction exactly once: whatever
the unit of work and the commit/rollback collaborators do, its trace holds
exactly one resolution attempt. -/
theorem runUnitOfWork_resolves_once {T P : Type} (db : DB) (f : TxBody T P) :
    commitCount (runUnitOfWork db f).2 + rollbackCount (runUnitOfWork db f).2 = 1 := by
  rcases db with ⟨be, de, ce, re⟩
  rcases f with ⟨v, _ | e0⟩ | p
  · rcases ce with _ | ce0 <;> rfl
  · rcases re with _ | re0 <;> rfl
  · rfl

/-- Claim C1: in every call of `ExecuteContext` whose begin step succeeds,
exactly one of commit / rollback is attempted on the transaction handle,
exactly once, on every exit path — normal return, unit-of-work error,
cleanup failure, and panic.  The operation trace is complete at the moment
the call returns (or re-raises the panic), so the single resolution
attempt happens before control goes back to the caller. -/
theorem claim_C1_exactly_once_resolution {T P : Type} [Inhabited T]
    (ctx : Context) (db : DB) (txFunc : TxBody T P)
    (options : List ConfigOption) (h : db.beginErr = none) :
    commitCount (V1.ExecuteContext ctx db txFunc options).2 +
      rollbackCount (V1.ExecuteContext ctx db txFunc options).2 = 1 := by
  obtain ⟨be, de, ce, re⟩ := db
  have hbe : be = none := h
  subst hbe
  have hr := runUnitOfWork_resolves_once (⟨none, de, ce, re⟩ : DB) txFunc
  simp only [V1.ExecuteContext]
  cases hda : (applyOptions options).deallocateAll
  · simp
    omega
  · rcases de with _ | de0
    · simp
      omega
    · simp

theorem claim_C1_exactly_once_resolution_witness :
    (⟨none, none, none, none⟩ : DB).beginErr = none ∧
    commitCount (V1.ExecuteContext Context.background ⟨none, none, none, none⟩
        (TxBody.ret (3 : Nat) none : TxBody Nat String) []).2 +
      rollbackCount (V1.ExecuteContext Context.background ⟨none, none, none, none⟩
        (TxBody.ret (3 : Nat) none : TxBody Nat String) []).2 = 1 :=
  ⟨rfl, claim_C1_exactly_once_resolution Context.background ⟨none, none, none, none⟩
    (TxBody.ret (3 : Nat) none : TxBody Nat String) [] rfl⟩

/-- Claim C2 counterexample: when the unit of work returns `(1, nil)` and
commit fails, `ExecuteContext` returns a non-nil error together with the
unit of work's value `1`, not the zero value `0` of the result type —
the named return `result` is never reset by the deferred block. -/
theorem claim_C2_zero_value_counterexample :
    (V1.ExecuteContext Context.background
        ⟨none, none, some (GoError.base "boom"), none⟩
        (TxBody.ret (1 : Nat) none : TxBody Nat String) []).1 =
      ExecOutcome.ret 1
        (some (GoError.wrap "failed to commit transaction" (GoError.base "boom")))
    ∧ (1 : Nat) ≠ (default : Nat) := by
  exact ⟨rfl, by decide⟩

/-- Claim C2 (amended): the zero value is returned exactly on the paths
that never ran the unit of work — begin failure and cleanup failure.  On
every path that runs the unit of work, `ExecuteContext` returns the value
the unit of work returned, whatever the error outcome; in particular,
when commit fails after a successful unit of work, the candidate result
value is returned alongside the commit error, not discarded/zeroed. -/
theorem claim_C2_amended_result_value {T P : Type} [Inhabited T]
    (ctx : Context) (db : DB) (txFunc : TxBody T P)
    (options : List ConfigOption) (v : T) (e : Option GoError)
    (be de0 : GoError) :
    (db.beginErr = some be →
      (V1.ExecuteContext ctx db txFunc options).1 =
        ExecOutcome.ret default
          (some (GoError.wrap "failed to begin transaction" be)))
  ∧ (db.beginErr = none → (applyOptions options).deallocateAll = true →
      db.deallocErr = some de0 →
      (V1.ExecuteContext ctx db txFunc options).1 =
        ExecOutcome.ret default
          (some (GoError.wrap "failed to deallocate prepared statements" de0)))
  ∧ (db.beginErr = none →
      ((applyOptions options).deallocateAll = true → db.deallocErr = none) →
      ∃ err : Option GoError,
        (V1.ExecuteContext ctx db (TxBody.ret (P := P) v e) options).1 =
          ExecOutcome.ret v err) := by
  obtain ⟨bev, de, ce, re⟩ := db
  refine ⟨?_, ?_, ?_⟩
  · intro h
    have hbe : bev = some be := h
    subst hbe
    rfl
  · intro h hda hde
    have hbe : bev = none := h
    subst hbe
    have hdev : de = some de0 := hde
    subst hdev
    simp only [V1.ExecuteContext, hda]
    rfl
  · intro h hcl
    have hbe : bev = none := h
    subst hbe
    simp only [V1.ExecuteContext]
    cases hda : (applyOptions options).deallocateAll
    · rcases e with _ | e0
      · rcases ce with _ | ce0 <;> exact ⟨_, rfl⟩
      · rcases re with _ | re0 <;> exact ⟨_, rfl⟩
    · have hdev : de = none := hcl hda
      subst hdev
      rcases e with _ | e0
      · rcases ce with _ | ce0 <;> exact ⟨_, rfl⟩
      · rcases re with _ | re0 <;> exact ⟨_, rfl⟩

theorem claim_C2_amended_result_value_witness :
    ((⟨some (GoError.base "b"), none, none, none⟩ : DB).beginErr =
        some (GoError.base "b")
      ∧ (V1.ExecuteContext Context.background
            ⟨some (GoError.base "b"), none, none, none⟩
            (TxBody.ret (5 : Nat) none : TxBody Nat String) []).1 =
          ExecOutcome.ret default
            (some (GoError.wrap "failed to begin transaction" (GoError.base "b"))))
  ∧ ((⟨none, some (GoError.base "d"), none, none⟩ : DB).beginErr = none
      ∧ (applyOptions [WithDeallocateAll]).deallocateAll = true
      ∧ (⟨none, some (GoError.base "d"), none, none⟩ : DB).deallocErr =
          some (GoError.base "d")
      ∧ (V1.ExecuteContext Context.background
            ⟨none, some (GoError.base "d"), none, none⟩
            (TxBody.ret (5 : Nat) none : TxBody Nat String) [WithDeallocateAll]).1 =
          ExecOutcome.ret default
            (some (GoError.wrap "failed to deallocate prepared statements"
              (GoError.base "d"))))
  ∧ ((⟨none, none, some (GoError.base "c"), none⟩ : DB).beginErr = none
      ∧ ∃ err : Option GoError,
          (V1.ExecuteContext Context.background
              ⟨none, none, some (GoError.base "c"), none⟩
              (TxBody.ret (5 : Nat) none : TxBody Nat String) []).1 =
            ExecOutcome.ret 5 err) :=
  ⟨⟨rfl, (claim_C2_amended_result_value Context.background
      ⟨some (GoError.base "b"), none, none, none⟩
      (TxBody.ret (5 : Nat) none : TxBody Nat String) [] 5 none
      (GoError.base "b") (GoError.base "d")).1 rfl⟩,
   ⟨rfl, rfl, rfl, ((claim_C2_amended_result_value Context.background
      ⟨none, some (GoError.base "d"), none, none⟩
      (TxBody.ret (5 : Nat) none : TxBody Nat String) [WithDeallocateAll] 5 none
      (GoError.base "b") (GoError.base "d")).2.1 rfl rfl rfl)⟩,
   ⟨rfl, ((claim_C2_amended_result_value Context.background
      ⟨none, none, some (GoError.base "c"), none⟩
      (TxBody.ret (5 : Nat) none : TxBody Nat String) [] 5 none
      (GoError.base "b") (GoError.base "d")).2.2 rfl (fun _ => rfl))⟩⟩

/-- Claim C3: when the unit of work returns `(v, nil)` and begin, the
optional cleanup statement, and commit all succeed, `ExecuteContext`
attempts commit exactly once, never attempts rollback, and returns
exactly `(v, nil)` — the result value unchanged and no error. -/
theorem claim_C3_success_commits_once {T P : Type} [Inhabited T]
    (ctx : Context) (db : DB) (options : List ConfigOption) (v : T)
    (hb : db.beginErr = none)
    (hcl : (applyOptions options).deallocateAll = true → db.deallocErr = none)
    (hc : db.commitErr = none) :
    (V1.ExecuteContext ctx db (TxBody.ret (P := P) v none) options).1 =
      ExecOutcome.ret v none
    ∧ commitCount (V1.ExecuteContext ctx db (TxBody.ret (P := P) v none) options).2 = 1
    ∧ rollbackCount (V1.ExecuteContext ctx db (TxBody.ret (P := P) v none) options).2 = 0 := by
  obtain ⟨be, de, ce, re⟩ := db
  have hbe : be = none := hb
  subst hbe
  have hce : ce = none := hc
  subst hce
  simp only [V1.ExecuteContext]
  cases hda : (applyOptions options).deallocateAll
  · exact ⟨rfl, rfl, rfl⟩
  · have hde : de = none := hcl hda
    subst hde
    exact ⟨rfl, rfl, rfl⟩

theorem claim_C3_success_commits_once_witness :
    (⟨none, none, none, none⟩ : DB).beginErr = none
  ∧ ((applyOptions []).deallocateAll = true →
      (⟨none, none, none, none⟩ : DB).deallocErr = none)
  ∧ (⟨none, none, none, none⟩ : DB).commitErr = none
  ∧ (V1.ExecuteContext Context.background ⟨none, none, none, none⟩
        (TxBody.ret (1 : Nat) none : TxBody Nat String) []).1 =
      ExecOutcome.ret 1 none
  ∧ commitCount (V1.ExecuteContext Context.background ⟨none, none, none, none⟩
        (TxBody.ret (1 : Nat) none : TxBody Nat String) []).2 = 1
  ∧ rollbackCount (V1.ExecuteContext Context.background ⟨none, none, none, none⟩
        (TxBody.ret (1 : Nat) none : TxBody Nat String) []).2 = 0 := by
  have h := claim_C3_success_commits_once (P := String) Context.background
    ⟨none, none, none, none⟩ [] (1 : Nat) rfl (fun _ => rfl) rfl
  exact ⟨rfl, fun _ => rfl, rfl, h.1, h.2.1, h.2.2⟩

/-- Claim C4: when the unit of work returns a non-nil error `e0` (after
begin and optional cleanup succeeded), `ExecuteContext` attempts rollback
exactly once and never commit.  If rollback succeeds the returned error is
`e0` unchanged; if rollback fails with `re`, the returned error is the
combined error whose message puts the rollback failure first (outer,
explanatory position) and whose `errors.Unwrap` yields `e0`, the original
cause. -/
theorem claim_C4_uow_error_rolls_back {T P : Type} [Inhabited T]
    (ctx : Context) (db : DB) (options : List ConfigOption) (v : T)
    (e0 : GoError)
    (hb : db.beginErr = none)
    (hcl : (applyOptions options).deallocateAll = true → db.deallocErr = none) :
    rollbackCount (V1.ExecuteContext ctx db (TxBody.ret (P := P) v (some e0)) options).2 = 1
    ∧ commitCount (V1.ExecuteContext ctx db (TxBody.ret (P := P) v (some e0)) options).2 = 0
    ∧ (db.rollbackErr = none →
        (V1.ExecuteContext ctx db (TxBody.ret (P := P) v (some e0)) options).1 =
          ExecOutcome.ret v (some e0))
    ∧ (∀ re : GoError, db.rollbackErr = some re →
        (V1.ExecuteContext ctx db (TxBody.ret (P := P) v (some e0)) options).1 =
          ExecOutcome.ret v (some (GoError.rollbackFailed re e0))
        ∧ (GoError.rollbackFailed re e0).unwrap = some e0
        ∧ (GoError.rollbackFailed re e0).error =
            "transaction rollback failed: " ++ re.error ++
              " (original error: " ++ e0.error ++ ")") := by
  obtain ⟨be, de, ce, re⟩ := db
  have hbe : be = none := hb
  subst hbe
  simp only [V1.ExecuteContext]
  cases hda : (applyOptions options).deallocateAll
  · rcases re with _ | re0
    · refine ⟨rfl, rfl, fun _ => rfl, ?_⟩
      intro r hr
      cases hr
    · refine ⟨rfl, rfl, ?_, ?_⟩
      · intro h
        cases h
      · intro r hr
        injection hr with hre
        subst hre
        exact ⟨rfl, rfl, rfl⟩
  · have hde : de = none := hcl hda
    subst hde
    rcases re with _ | re0
    · refine ⟨rfl, rfl, fun _ => rfl, ?_⟩
      intro r hr
      cases hr
    · refine ⟨rfl, rfl, ?_, ?_⟩
      · intro h
        cases h
      · intro r hr
        injection hr with hre
        subst hre
        exact ⟨rfl, rfl, rfl⟩

theorem claim_C4_uow_error_rolls_back_witness :
    (⟨none, none, none, some (GoError.base "rb")⟩ : DB).beginErr = none
  ∧ ((applyOptions []).deallocateAll = true →
      (⟨none, none, none, some (GoError.base "rb")⟩ : DB).deallocErr = none)
  ∧ rollbackCount (V1.ExecuteContext Context.background
        ⟨none, none, none, some (GoError.base "rb")⟩
        (TxBody.ret (7 : Nat) (some (GoError.base "uow")) : TxBody Nat String) []).2 = 1
  ∧ commitCount (V1.ExecuteContext Context.background
        ⟨none, none, none, some (GoError.base "rb")⟩
        (TxBody.ret (7 : Nat) (some (GoError.base "uow")) : TxBody Nat String) []).2 = 0
  ∧ (V1.ExecuteContext Context.background
        ⟨none, none, none, some (GoError.base "rb")⟩
        (TxBody.ret (7 : Nat) (some (GoError.base "uow")) : TxBody Nat String) []).1 =
      ExecOutcome.ret 7
        (some (GoError.rollbackFailed (GoError.base "rb") (GoError.base "uow")))
  ∧ (GoError.rollbackFailed (GoError.base "rb") (GoError.base "uow")).unwrap =
      some (GoError.base "uow")
  ∧ (GoError.rollbackFailed (GoError.base "rb") (GoError.base "uow")).error =
      "transaction rollback failed: rb (original error: uow)" := by
  have h := claim_C4_uow_error_rolls_back (P := String) Context.background
    ⟨none, none, none, some (GoError.base "rb")⟩ [] (7 : Nat)
    (GoError.base "uow") rfl (fun _ => rfl)
  have h4 := h.2.2.2 (GoError.base "rb") rfl
  exact ⟨rfl, fun _ => rfl, h.1, h.2.1, h4.1, h4.2.1, by decide⟩

/-- Claim C5: when the unit of work panics with payload `p` (after begin
and optional cleanup succeeded), `ExecuteContext` attempts rollback
exactly once (whatever the rollback error, which is discarded), never
commit, does not convert the panic into a returned error, and re-raises
the same payload `p`; its normal return path is never reached. -/
theorem claim_C5_panic_rolls_back_and_rethrows {T P : Type} [Inhabited T]
    (ctx : Context) (db : DB) (options : List ConfigOption) (p : P)
    (hb : db.beginErr = none)
    (hcl : (applyOptions options).deallocateAll = true → db.deallocErr = none) :
    (V1.ExecuteContext ctx db (TxBody.panics (T := T) p) options).1 =
      ExecOutcome.panicked p
    ∧ rollbackCount (V1.ExecuteContext ctx db (TxBody.panics (T := T) p) options).2 = 1
    ∧ commitCount (V1.ExecuteContext ctx db (TxBody.panics (T := T) p) options).2 = 0 := by
  obtain ⟨be, de, ce, re⟩ := db
  have hbe : be = none := hb
  subst hbe
  simp only [V1.ExecuteContext]
  cases hda : (applyOptions options).deallocateAll
  · exact ⟨rfl, rfl, rfl⟩
  · have hde : de = none := hcl hda
    subst hde
    exact ⟨rfl, rfl, rfl⟩

theorem claim_C5_panic_rolls_back_and_rethrows_witness :
    (⟨none, none, none, some (GoError.base "rb")⟩ : DB).beginErr = none
  ∧ ((applyOptions []).deallocateAll = true →
      (⟨none, none, none, some (GoError.base "rb")⟩ : DB).deallocErr = none)
  ∧ (V1.ExecuteContext Context.background
        ⟨none, none, none, some (GoError.base "rb")⟩
        (TxBody.panics "test panic" : TxBody Nat String) []).1 =
      ExecOutcome.panicked "test panic"
  ∧ rollbackCount (V1.ExecuteContext Context.background
        ⟨none, none, none, some (GoError.base "rb")⟩
        (TxBody.panics "test panic" : TxBody Nat String) []).2 = 1
  ∧ commitCount (V1.ExecuteContext Context.background
        ⟨none, none, none, some (GoError.base "rb")⟩
        (TxBody.panics "test panic" : TxBody Nat String) []).2 = 0 := by
  have h := claim_C5_panic_rolls_back_and_rethrows (T := Nat) Context.background
    ⟨none, none, none, some (GoError.base "rb")⟩ [] "test panic" rfl (fun _ => rfl)
  exact ⟨rfl, fun _ => rfl, h.1, h.2.1, h.2.2⟩

/-- Claim C6: when beginning the transaction fails with `be`,
`ExecuteContext` returns the zero result and an error wrapping `be`
(identifying the begin phase, with `be` retrievable via `errors.Unwrap`),
and its whole trace is the single failed begin attempt: no cleanup
statement, no commit, no rollback, and no unit-of-work invocation. -/
theorem claim_C6_begin_failure_returns_immediately {T P : Type} [Inhabited T]
    (ctx : Context) (db : DB) (txFunc : TxBody T P)
    (options : List ConfigOption) (be : GoError)
    (hb : db.beginErr = some be) :
    V1.ExecuteContext ctx db txFunc options =
      (ExecOutcome.ret default
        (some (GoError.wrap "failed to begin transaction" be)),
       [Op.beginTx ctx (applyOptions options).txOptions])
    ∧ (GoError.wrap "failed to begin transaction" be).unwrap = some be
    ∧ execStmtCount (V1.ExecuteContext ctx db txFunc options).2 = 0
    ∧ commitCount (V1.ExecuteContext ctx db txFunc options).2 = 0
    ∧ rollbackCount (V1.ExecuteContext ctx db txFunc options).2 = 0
    ∧ callTxFuncCount (V1.ExecuteContext ctx db txFunc options).2 = 0 := by
  obtain ⟨bev, de, ce, re⟩ := db
  have hbe : bev = some be := hb
  subst hbe
  exact ⟨rfl, rfl, rfl, rfl, rfl, rfl⟩

theorem claim_C6_begin_failure_returns_immediately_witness :
    (⟨some (GoError.base "down"), none, none, none⟩ : DB).beginErr =
      some (GoError.base "down")
  ∧ V1.ExecuteContext Context.background
      ⟨some (GoError.base "down"), none, none, none⟩
      (TxBody.ret (9 : Nat) none : TxBody Nat String) [] =
      (ExecOutcome.ret default
        (some (GoError.wrap "failed to begin transaction" (GoError.base "down"))),
       [Op.beginTx Context.background (applyOptions []).txOptions])
  ∧ (GoError.wrap "failed to begin transaction" (GoError.base "down")).unwrap =
      some (GoError.base "down")
  ∧ execStmtCount (V1.ExecuteContext Context.background
      ⟨some (GoError.base "down"), none, none, none⟩
      (TxBody.ret (9 : Nat) none : TxBody Nat String) []).2 = 0
  ∧ commitCount (V1.ExecuteContext Context.background
      ⟨some (GoError.base "down"), none, none, none⟩
      (TxBody.ret (9 : Nat) none : TxBody Nat String) []).2 = 0
  ∧ rollbackCount (V1.ExecuteContext Context.background
      ⟨some (GoError.base "down"), none, none, none⟩
      (TxBody.ret (9 : Nat) none : TxBody Nat String) []).2 = 0
  ∧ callTxFuncCount (V1.ExecuteContext Context.background
      ⟨some (GoError.base "down"), none, none, none⟩
      (TxBody.ret (9 : Nat) none : TxBody Nat String) []).2 = 0 := by
  have h := claim_C6_begin_failure_returns_immediately Context.background
    ⟨some (GoError.base "down"), none, none, none⟩
    (TxBody.ret (9 : Nat) none : TxBody Nat String) [] (GoError.base "down") rfl
  exact ⟨rfl, h.1, h.2.1, h.2.2.1, h.2.2.2.1, h.2.2.2.2.1, h.2.2.2.2.2⟩

/-- Claim C7: when the `DeallocateAll` flag is set and the cleanup
statement fails with `de0` after a successful begin, `ExecuteContext`
rolls back exactly once (the rollback outcome is discarded: the result is
the same whatever `db.rollbackErr` is), never invokes the unit of work,
and returns the zero result with the cleanup-phase error wrapping `de0`
as its unwrappable cause. -/
theorem claim_C7_cleanup_failure {T P : Type} [Inhabited T]
    (ctx : Context) (db : DB) (txFunc : TxBody T P)
    (options : List ConfigOption) (de0 : GoError)
    (hb : db.beginErr = none)
    (hda : (applyOptions options).deallocateAll = true)
    (hde : db.deallocErr = some de0) :
    V1.ExecuteContext ctx db txFunc options =
      (ExecOutcome.ret default
        (some (GoError.wrap "failed to deallocate prepared statements" de0)),
       [Op.beginTx ctx (applyOptions options).txOptions,
        Op.execStmt ctx "DEALLOCATE ALL", Op.rollback])
    ∧ (GoError.wrap "failed to deallocate prepared statements" de0).unwrap = some de0
    ∧ rollbackCount (V1.ExecuteContext ctx db txFunc options).2 = 1
    ∧ commitCount (V1.ExecuteContext ctx db txFunc options).2 = 0
    ∧ callTxFuncCount (V1.ExecuteContext ctx db txFunc options).2 = 0 := by
  obtain ⟨bev, de, ce, re⟩ := db
  have hbe : bev = none := hb
  subst hbe
  have hdev : de = some de0 := hde
  subst hdev
  simp only [V1.ExecuteContext, hda]
  exact ⟨rfl, rfl, rfl, rfl, rfl⟩

theorem claim_C7_cleanup_failure_witness :
    (⟨none, some (GoError.base "dealloc"), none, some (GoError.base "rb")⟩ : DB).beginErr = none
  ∧ (applyOptions [WithDeallocateAll]).deallocateAll = true
  ∧ (⟨none, some (GoError.base "dealloc"), none, some (GoError.base "rb")⟩ : DB).deallocErr =
      some (GoError.base "dealloc")
  ∧ V1.ExecuteContext Context.background
      ⟨none, some (GoError.base "dealloc"), none, some (GoError.base "rb")⟩
      (TxBody.ret (2 : Nat) none : TxBody Nat String) [WithDeallocateAll] =
      (ExecOutcome.ret default
        (some (GoError.wrap "failed to deallocate prepared statements"
          (GoError.base "dealloc"))),
       [Op.beginTx Context.background (applyOptions [WithDeallocateAll]).txOptions,
        Op.execStmt Context.background "DEALLOCATE ALL", Op.rollback])
  ∧ (GoError.wrap "failed to deallocate prepared statements"
      (GoError.base "dealloc")).unwrap = some (GoError.base "dealloc")
  ∧ callTxFuncCount (V1.ExecuteContext Context.background
      ⟨none, some (GoError.base "dealloc"), none, some (GoError.base "rb")⟩
      (TxBody.ret (2 : Nat) none : TxBody Nat String) [WithDeallocateAll]).2 = 0 := by
  have h := claim_C7_cleanup_failure Context.background
    ⟨none, some (GoError.base "dealloc"), none, some (GoError.base "rb")⟩
    (TxBody.ret (2 : Nat) none : TxBody Nat String) [WithDeallocateAll]
    (GoError.base "dealloc") rfl rfl rfl
  exact ⟨rfl, rfl, rfl, h.1, h.2.1, h.2.2.2.2⟩

/-- Claim C8: with no configuration — `Execute`, or `ExecuteContext` with
no options (first variant) or a nil `*Config` (second variant) — the
executor begins the transaction with a nil `*sql.TxOptions`
(driver-default isolation, not read-only) and executes no cleanup
statement at any point, in particular not before the unit of work. -/
theorem claim_C8_default_configuration {T P : Type} [Inhabited T]
    (ctx : Context) (db : DB) (txFunc : TxBody T P) :
    applyOptions [] = { txOptions := none, deallocateAll := false }
  ∧ V1.Execute db txFunc = V1.ExecuteContext Context.background db txFunc []
  ∧ V2.Execute db txFunc = V2.ExecuteContext Context.background db none txFunc
  ∧ (V1.ExecuteContext ctx db txFunc []).2.head? = some (Op.beginTx ctx none)
  ∧ execStmtCount (V1.ExecuteContext ctx db txFunc []).2 = 0
  ∧ (V2.ExecuteContext ctx db none txFunc).2.head? = some (Op.beginTx ctx none)
  ∧ execStmtCount (V2.ExecuteContext ctx db none txFunc).2 = 0 := by
  obtain ⟨bev, de, ce, re⟩ := db
  refine ⟨rfl, rfl, rfl, ?_, ?_, ?_, ?_⟩ <;>
    rcases bev with _ | be0 <;>
      rcases txFunc with ⟨v, _ | e0⟩ | p <;>
        first
          | rfl
          | (rcases ce with _ | ce0 <;> rfl)
          | (rcases re with _ | re0 <;> rfl)

/-- Claim C9: the two shipped variants are behaviorally equivalent.  For
every context, database behaviour, and unit of work, the
functional-options `ExecuteContext` with option list `options` coincides
with the Config-struct `ExecuteContext` given the corresponding
configuration `applyOptions options`; a nil config behaves as the zero
config; and each variant's `Execute` (and `ExecuteWithConfig`) equals its
`ExecuteContext` with the background context and default configuration,
so the two `Execute`s agree as well. -/
theorem claim_C9_variants_equivalent {T P : Type} [Inhabited T]
    (ctx : Context) (db : DB) (txFunc : TxBody T P)
    (options : List ConfigOption) (config : Option Config) :
    V1.ExecuteContext ctx db txFunc options =
      V2.ExecuteContext ctx db (some (applyOptions options)) txFunc
  ∧ V2.ExecuteContext ctx db none txFunc =
      V2.ExecuteContext ctx db (some {}) txFunc
  ∧ V1.Execute db txFunc = V1.ExecuteContext Context.background db txFunc []
  ∧ V2.Execute db txFunc = V2.ExecuteContext Context.background db none txFunc
  ∧ V2.ExecuteWithConfig db config txFunc =
      V2.ExecuteContext Context.background db config txFunc
  ∧ V1.Execute db txFunc = V2.Execute db txFunc := by
  exact ⟨rfl, rfl, rfl, rfl, rfl, rfl⟩

/-- Claim C10: starting from the zero `Config`, `WithIsolationLevel level`
and `WithReadOnly` commute: applied in either order they produce the same
configuration, with `TxOptions` allocated, `Isolation = level` and
`ReadOnly = true`; moreover each option, applied to a config whose
`TxOptions` already exists, preserves the other field. -/
theorem claim_C10_options_commute (level : IsolationLevel) (c : Config)
    (o : TxOptions) :
    applyOptions [WithIsolationLevel level, WithReadOnly] =
      applyOptions [WithReadOnly, WithIsolationLevel level]
  ∧ applyOptions [WithIsolationLevel level, WithReadOnly] =
      { txOptions := some { isolation := level, readOnly := true },
        deallocateAll := false }
  ∧ (WithIsolationLevel level { c with txOptions := some o }).txOptions =
      some { o with isolation := level }
  ∧ (WithReadOnly { c with txOptions := some o }).txOptions =
      some { o with readOnly := true } := by
  exact ⟨rfl, rfl, rfl, rfl⟩

end SqlxTx
